import Mathlib

/-!
Verification of the multi-agent shopping orchestrators
(`src/concurrent-orchestration/main.py` and
`src/sequential-orchestration/main.py`).

The LLM calls are external collaborators; each agent chain is modelled as
an oracle function from its input payload to `Except String String`
(an error message, modelling a raised exception, or the completion text).
The orchestrators are translated into pure Lean functions that return the
turn's outcome, the updated memory, and an event trace recording every
stage invocation, its resolution, and the memory write, in the order the
Python code performs (or, for the `asyncio.gather` fan-out, joins) them.
-/

namespace Orchestration

/-- A conversation memory record: one `(user_input, output)` pair, as stored
by `ConversationBufferMemory.save_context`. -/
abbrev Memory := List (String × String)

/-- The four agent chains, abstracted as oracles. `shopping` receives the
user input and the conversation history loaded from memory (the chain's
`{input}` / `{chat_history}` placeholders); the other three receive a single
input payload. `Except.error` models an exception raised by the underlying
LLM call. -/
structure Oracle where
  shopping : String → Memory → Except String String
  catalog : String → Except String String
  service : String → Except String String
  payment : String → Except String String

deriving instance DecidableEq for Except

/-- Observable events of one orchestrated turn: each stage call with its
input payload, each stage resolution with its result, and the memory write. -/
inductive Event where
  | shoppingCall (input : String) (history : Memory)
  | shoppingDone (r : Except String String)
  | catalogCall (input : String)
  | catalogDone (r : Except String String)
  | serviceCall (input : String)
  | serviceDone (r : Except String String)
  | paymentCall (input : String)
  | paymentDone (r : Except String String)
  | memorySave (input : String) (output : String)
deriving DecidableEq, Repr

/-- Result of one call to `orchestrate`: the returned final output (or the
propagated exception), the memory contents afterwards, and the event trace. -/
structure TurnResult where
  outcome : Except String String
  memory : Memory
  trace : List Event
deriving DecidableEq, Repr

/-- Tests whether `needle` is a leading segment of `hay` (over characters). -/
def charsLead : List Char → List Char → Bool
  | [], _ => true
  | _ :: _, [] => false
  | a :: as, b :: bs => (a = b) && charsLead as bs

/-- Tests whether `needle` occurs as a contiguous segment of `hay`. -/
def hasSeg (needle : List Char) : List Char → Bool
  | [] => charsLead needle []
  | h :: t => charsLead needle (h :: t) || hasSeg needle t

/-- Python's substring test `needle in hay`. -/
def pyIn (needle hay : String) : Bool := hasSeg needle.data hay.data

/-- The sentinel substring the shopping agent emits when purchase intent is
established. -/
def SENTINEL : String := "READY_TO_PURCHASE:"

/-- The two-valued branch decision of the intent classifier. -/
inductive Decision where
  | fulfillment
  | continueConversation
deriving DecidableEq, Repr

/-- The intent classifier: a substring test of the shopping output against
the fixed sentinel (`"READY_TO_PURCHASE:" in shopping_result`). -/
def classify (shoppingOutput : String) : Decision :=
  if pyIn SENTINEL shoppingOutput then .fulfillment else .continueConversation

/-- The composite payment payload of the concurrent orchestrator: the
`combined_input` f-string embedding the catalog result, the customer-service
result, and the original shopping output. -/
def combinedInput (catalogResult serviceResult shoppingResult : String) : String :=
  "\nCatalog Information:\n" ++ catalogResult ++
  "\n\nCustomer Service Information:\n" ++ serviceResult ++
  "\n\nOriginal Request: " ++ shoppingResult ++ "\n"

/-- Models `MultiAgentConcurrentOrchestrator.orchestrate_async`: shopping stage with
history, then on the sentinel branch the catalog and customer-service stages
fanned out and joined by `asyncio.gather` (both tasks are started; the join
waits for both; an exception in either propagates and payment is never
reached), then the payment stage on the composite payload, then exactly one
`save_context` with the final output. An exception anywhere aborts the turn
with the memory unchanged. -/
def concOrchestrate (o : Oracle) (mem : Memory) (userInput : String) : TurnResult :=
  match o.shopping userInput mem with
  | .error e =>
      ⟨.error e, mem, [.shoppingCall userInput mem, .shoppingDone (.error e)]⟩
  | .ok shoppingResult =>
      let tr0 : List Event :=
        [.shoppingCall userInput mem, .shoppingDone (.ok shoppingResult)]
      if pyIn SENTINEL shoppingResult then
        let catalogR := o.catalog shoppingResult
        let serviceR := o.service shoppingResult
        let tr1 : List Event := tr0 ++
          [.catalogCall shoppingResult, .serviceCall shoppingResult,
           .catalogDone catalogR, .serviceDone serviceR]
        match catalogR, serviceR with
        | .ok catalogResult, .ok serviceResult =>
            let combined := combinedInput catalogResult serviceResult shoppingResult
            match o.payment combined with
            | .error e =>
                ⟨.error e, mem, tr1 ++ [.paymentCall combined, .paymentDone (.error e)]⟩
            | .ok paymentResult =>
                ⟨.ok paymentResult, mem ++ [(userInput, paymentResult)],
                 tr1 ++ [.paymentCall combined, .paymentDone (.ok paymentResult),
                         .memorySave userInput paymentResult]⟩
        | .error e, _ => ⟨.error e, mem, tr1⟩
        | .ok _, .error e => ⟨.error e, mem, tr1⟩
      else
        ⟨.ok shoppingResult, mem ++ [(userInput, shoppingResult)],
         tr0 ++ [.memorySave userInput shoppingResult]⟩

/-- Models `MultiAgentSequentialOrchestrator.orchestrate`: shopping stage with
history, then on the sentinel branch the catalog stage on the shopping output
followed by the payment stage on the catalog output (no customer-service
stage exists in this variant), then exactly one `save_context` with the
final output. An exception anywhere aborts the turn with the memory
unchanged. -/
def seqOrchestrate (o : Oracle) (mem : Memory) (userInput : String) : TurnResult :=
  match o.shopping userInput mem with
  | .error e =>
      ⟨.error e, mem, [.shoppingCall userInput mem, .shoppingDone (.error e)]⟩
  | .ok shoppingResult =>
      let tr0 : List Event :=
        [.shoppingCall userInput mem, .shoppingDone (.ok shoppingResult)]
      if pyIn SENTINEL shoppingResult then
        match o.catalog shoppingResult with
        | .error e =>
            ⟨.error e, mem, tr0 ++ [.catalogCall shoppingResult, .catalogDone (.error e)]⟩
        | .ok catalogResult =>
            let tr1 : List Event := tr0 ++
              [.catalogCall shoppingResult, .catalogDone (.ok catalogResult)]
            match o.payment catalogResult with
            | .error e =>
                ⟨.error e, mem, tr1 ++ [.paymentCall catalogResult, .paymentDone (.error e)]⟩
            | .ok paymentResult =>
                ⟨.ok paymentResult, mem ++ [(userInput, paymentResult)],
                 tr1 ++ [.paymentCall catalogResult, .paymentDone (.ok paymentResult),
                         .memorySave userInput paymentResult]⟩
      else
        ⟨.ok shoppingResult, mem ++ [(userInput, shoppingResult)],
         tr0 ++ [.memorySave userInput shoppingResult]⟩

/-- Python's `str.strip()` restricted to the whitespace characters relevant
here (space, tab, carriage return, line feed). -/
def pyStrip (s : String) : String :=
  ⟨((s.data.dropWhile Char.isWhitespace).reverse.dropWhile Char.isWhitespace).reverse⟩

/-- Python's `str.lower()` applied characterwise. -/
def pyLower (s : String) : String := ⟨s.data.map Char.toLower⟩

/-- The exit-token test of the conversation loop:
`user_input.lower() in ['quit', 'exit', 'q']` applied to the stripped line. -/
def isExitLine (line : String) : Bool :=
  pyLower (pyStrip line) = "quit" ∨ pyLower (pyStrip line) = "exit" ∨
    pyLower (pyStrip line) = "q"

/-- The conversation loop `run`, processing a finite list of input lines
threaded through the given orchestrate function. Each line is stripped; an
exit token stops the loop with process exit status `0` (the `break` returns
from `run` and the program ends normally); a nonempty line runs one
orchestrated turn whose exception, if any, is caught so the loop continues;
an empty line is skipped. `none` means the line list ran out with the loop
still awaiting input. -/
def runLoop (orch : Memory → String → TurnResult) :
    List String → Memory → List Event → Memory × List Event × Option Nat
  | [], mem, tr => (mem, tr, none)
  | line :: rest, mem, tr =>
      if isExitLine line then (mem, tr, some 0)
      else if pyStrip line ≠ "" then
        let r := orch mem (pyStrip line)
        runLoop orch rest r.memory (tr ++ r.trace)
      else runLoop orch rest mem tr

/-- Counts the events of a trace satisfying a predicate. -/
def countIf (p : Event → Bool) (tr : List Event) : Nat := (tr.filter p).length

/-- Holds (as `true`) iff every event satisfying `q` is strictly
preceded in `tr` by an event satisfying `p` (given `seen` records whether a
`p`-event already occurred). -/
def onlyAfter (p q : Event → Bool) : List Event → Bool → Bool
  | [], _ => true
  | e :: rest, seen => (seen || !q e) && onlyAfter p q rest (seen || p e)

def Event.isCatalogCall : Event → Bool
  | .catalogCall _ => true
  | _ => false

def Event.isServiceCall : Event → Bool
  | .serviceCall _ => true
  | _ => false

def Event.isPaymentCall : Event → Bool
  | .paymentCall _ => true
  | _ => false

def Event.isSave : Event → Bool
  | .memorySave _ _ => true
  | _ => false

def Event.isShoppingCall : Event → Bool
  | .shoppingCall _ _ => true
  | _ => false

def Event.isCatalogDone : Event → Bool
  | .catalogDone _ => true
  | _ => false

def Event.isServiceDone : Event → Bool
  | .serviceDone _ => true
  | _ => false

/-- A concrete oracle for a purchase-intent turn on which every stage
succeeds. -/
def okOracle : Oracle where
  shopping := fun _ _ => .ok "READY_TO_PURCHASE: running shoes"
  catalog := fun _ => .ok "catalogInfo"
  service := fun _ => .ok "serviceInfo"
  payment := fun _ => .ok "orderSummary"

/-- A concrete oracle for a conversational turn (no sentinel in the shopping
output). -/
def chatOracle : Oracle :=
  { okOracle with shopping := fun _ _ => .ok "We have running and hiking shoes" }

/-- A concrete oracle whose catalog stage raises a failure. -/
def catFailOracle : Oracle :=
  { okOracle with catalog := fun _ => .error "transport failure" }

/-- C1: in the concurrent orchestrator, whenever the shopping stage returns
an output containing the sentinel, the catalog stage and the
customer-service stage are each invoked exactly once and every payment
invocation comes strictly after both; whenever the output lacks the
sentinel, neither the catalog stage nor the payment stage is invoked and
the final output equals the shopping output. -/
theorem conc_branch_correctness (o : Oracle) (mem : Memory) (u s : String)
    (hs : o.shopping u mem = .ok s) :
    (pyIn SENTINEL s = true →
      countIf Event.isCatalogCall (concOrchestrate o mem u).trace = 1 ∧
      countIf Event.isServiceCall (concOrchestrate o mem u).trace = 1 ∧
      onlyAfter Event.isCatalogCall Event.isPaymentCall
        (concOrchestrate o mem u).trace false = true ∧
      onlyAfter Event.isServiceCall Event.isPaymentCall
        (concOrchestrate o mem u).trace false = true) ∧
    (pyIn SENTINEL s = false →
      countIf Event.isCatalogCall (concOrchestrate o mem u).trace = 0 ∧
      countIf Event.isPaymentCall (concOrchestrate o mem u).trace = 0 ∧
      (concOrchestrate o mem u).outcome = .ok s) := by
  constructor
  · intro hsen
    cases hc : o.catalog s with
    | error e =>
        simp [concOrchestrate, hs, hsen, hc, countIf, onlyAfter,
          Event.isCatalogCall, Event.isServiceCall, Event.isPaymentCall]
    | ok c =>
        cases hv : o.service s with
        | error e =>
            simp [concOrchestrate, hs, hsen, hc, hv, countIf, onlyAfter,
              Event.isCatalogCall, Event.isServiceCall, Event.isPaymentCall]
        | ok sv =>
            cases hp : o.payment (combinedInput c sv s) with
            | error e =>
                simp [concOrchestrate, hs, hsen, hc, hv, hp, countIf, onlyAfter,
                  Event.isCatalogCall, Event.isServiceCall, Event.isPaymentCall]
            | ok p =>
                simp [concOrchestrate, hs, hsen, hc, hv, hp, countIf, onlyAfter,
                  Event.isCatalogCall, Event.isServiceCall, Event.isPaymentCall]
  · intro hsen
    simp [concOrchestrate, hs, hsen, countIf,
      Event.isCatalogCall, Event.isPaymentCall]

/-- C1 witness: the theorem applied to the all-success purchase oracle and,
for the second conjunct, to the conversational oracle, at concrete inputs. -/
theorem conc_branch_correctness_witness :
    countIf Event.isCatalogCall
      (concOrchestrate okOracle [] "buy shoes").trace = 1 ∧
    countIf Event.isPaymentCall
      (concOrchestrate chatOracle [] "what shoes?").trace = 0 :=
  ⟨((conc_branch_correctness okOracle [] "buy shoes"
      "READY_TO_PURCHASE: running shoes" rfl).1 (by decide)).1,
   ((conc_branch_correctness chatOracle [] "what shoes?"
      "We have running and hiking shoes" rfl).2 (by decide)).2.1⟩

/-- C2: in the concurrent orchestrator, every payment invocation occurs
strictly after both the catalog result and the customer-service result have
resolved (the `asyncio.gather` join is a barrier), and if either of the two
parallel stage calls raises a failure then the payment stage is never
invoked in that turn. -/
theorem conc_join_barrier (o : Oracle) (mem : Memory) (u : String) :
    (onlyAfter Event.isCatalogDone Event.isPaymentCall
        (concOrchestrate o mem u).trace false = true ∧
      onlyAfter Event.isServiceDone Event.isPaymentCall
        (concOrchestrate o mem u).trace false = true) ∧
    (∀ s e, o.shopping u mem = .ok s →
      (o.catalog s = .error e ∨ o.service s = .error e) →
      countIf Event.isPaymentCall (concOrchestrate o mem u).trace = 0) := by
  constructor
  · cases hs : o.shopping u mem with
    | error e =>
        simp [concOrchestrate, hs, onlyAfter,
          Event.isCatalogDone, Event.isServiceDone, Event.isPaymentCall]
    | ok s =>
      cases hsen : pyIn SENTINEL s with
      | false =>
          simp [concOrchestrate, hs, hsen, onlyAfter,
            Event.isCatalogDone, Event.isServiceDone, Event.isPaymentCall]
      | true =>
        cases hc : o.catalog s with
        | error e =>
            cases hv : o.service s <;>
              simp [concOrchestrate, hs, hsen, hc, hv, onlyAfter,
                Event.isCatalogDone, Event.isServiceDone, Event.isPaymentCall]
        | ok c =>
          cases hv : o.service s with
          | error e =>
              simp [concOrchestrate, hs, hsen, hc, hv, onlyAfter,
                Event.isCatalogDone, Event.isServiceDone, Event.isPaymentCall]
          | ok sv =>
              cases hp : o.payment (combinedInput c sv s) <;>
                simp [concOrchestrate, hs, hsen, hc, hv, hp, onlyAfter,
                  Event.isCatalogDone, Event.isServiceDone, Event.isPaymentCall]
  · intro s e hs hfail
    cases hsen : pyIn SENTINEL s with
    | false =>
        simp [concOrchestrate, hs, hsen, countIf, Event.isPaymentCall]
    | true =>
      rcases hfail with hc | hv
      · cases hvv : o.service s <;>
          simp [concOrchestrate, hs, hsen, hc, hvv, countIf, Event.isPaymentCall]
      · cases hcc : o.catalog s <;>
          simp [concOrchestrate, hs, hsen, hv, hcc, countIf, Event.isPaymentCall]

/-- C2 witness: with a catalog stage that raises a transport failure, the
payment stage is never invoked. -/
theorem conc_join_barrier_witness :
    countIf Event.isPaymentCall
      (concOrchestrate catFailOracle [] "buy shoes").trace = 0 :=
  (conc_join_barrier catFailOracle [] "buy shoes").2
    "READY_TO_PURCHASE: running shoes" "transport failure" rfl (Or.inl rfl)

/-- C3: on every successfully completed turn of either orchestrator, the
memory gains exactly one new entry, appended after all stage events, and
the entry's recorded output equals the final output returned to the
caller. -/
theorem memory_atomic_append (o : Oracle) (mem : Memory) (u r : String) :
    ((concOrchestrate o mem u).outcome = .ok r →
      (concOrchestrate o mem u).memory = mem ++ [(u, r)] ∧
      countIf Event.isSave (concOrchestrate o mem u).trace = 1 ∧
      ∃ pre, (concOrchestrate o mem u).trace = pre ++ [Event.memorySave u r] ∧
        countIf Event.isSave pre = 0) ∧
    ((seqOrchestrate o mem u).outcome = .ok r →
      (seqOrchestrate o mem u).memory = mem ++ [(u, r)] ∧
      countIf Event.isSave (seqOrchestrate o mem u).trace = 1 ∧
      ∃ pre, (seqOrchestrate o mem u).trace = pre ++ [Event.memorySave u r] ∧
        countIf Event.isSave pre = 0) := by
  constructor
  · intro hok
    cases hs : o.shopping u mem with
    | error e => simp [concOrchestrate, hs] at hok
    | ok s =>
      cases hsen : pyIn SENTINEL s with
      | false =>
          simp [concOrchestrate, hs, hsen] at hok
          subst hok
          refine ⟨by simp [concOrchestrate, hs, hsen], ?_,
            [.shoppingCall u mem, .shoppingDone (.ok s)], ?_, ?_⟩ <;>
            simp [concOrchestrate, hs, hsen, countIf, Event.isSave]
      | true =>
        cases hc : o.catalog s with
        | error e => simp [concOrchestrate, hs, hsen, hc] at hok
        | ok c =>
          cases hv : o.service s with
          | error e => simp [concOrchestrate, hs, hsen, hc, hv] at hok
          | ok sv =>
            cases hp : o.payment (combinedInput c sv s) with
            | error e => simp [concOrchestrate, hs, hsen, hc, hv, hp] at hok
            | ok p =>
                simp [concOrchestrate, hs, hsen, hc, hv, hp] at hok
                subst hok
                refine ⟨by simp [concOrchestrate, hs, hsen, hc, hv, hp], ?_,
                  [.shoppingCall u mem, .shoppingDone (.ok s),
                   .catalogCall s, .serviceCall s,
                   .catalogDone (.ok c), .serviceDone (.ok sv),
                   .paymentCall (combinedInput c sv s), .paymentDone (.ok p)],
                  ?_, ?_⟩ <;>
                  simp [concOrchestrate, hs, hsen, hc, hv, hp, countIf, Event.isSave]
  · intro hok
    cases hs : o.shopping u mem with
    | error e => simp [seqOrchestrate, hs] at hok
    | ok s =>
      cases hsen : pyIn SENTINEL s with
      | false =>
          simp [seqOrchestrate, hs, hsen] at hok
          subst hok
          refine ⟨by simp [seqOrchestrate, hs, hsen], ?_,
            [.shoppingCall u mem, .shoppingDone (.ok s)], ?_, ?_⟩ <;>
            simp [seqOrchestrate, hs, hsen, countIf, Event.isSave]
      | true =>
        cases hc : o.catalog s with
        | error e => simp [seqOrchestrate, hs, hsen, hc] at hok
        | ok c =>
          cases hp : o.payment c with
          | error e => simp [seqOrchestrate, hs, hsen, hc, hp] at hok
          | ok p =>
              simp [seqOrchestrate, hs, hsen, hc, hp] at hok
              subst hok
              refine ⟨by simp [seqOrchestrate, hs, hsen, hc, hp], ?_,
                [.shoppingCall u mem, .shoppingDone (.ok s),
                 .catalogCall s, .catalogDone (.ok c),
                 .paymentCall c, .paymentDone (.ok p)], ?_, ?_⟩ <;>
                simp [seqOrchestrate, hs, hsen, hc, hp, countIf, Event.isSave]

/-- C3 witness: the all-success purchase turn appends exactly its one
final entry in both orchestrators. -/
theorem memory_atomic_append_witness :
    (concOrchestrate okOracle [] "buy shoes").memory =
      [("buy shoes", "orderSummary")] ∧
    (seqOrchestrate okOracle [] "buy shoes").memory =
      [("buy shoes", "orderSummary")] :=
  ⟨((memory_atomic_append okOracle [] "buy shoes" "orderSummary").1
      (by decide)).1,
   ((memory_atomic_append okOracle [] "buy shoes" "orderSummary").2
      (by decide)).1⟩

/-- C4: whenever a stage invocation raises a failure in either orchestrator,
the turn aborts with the error as its outcome, the memory unchanged, and no
memory-write event in the trace; the conversation loop catches the failure
and continues with the remaining prompts. -/
theorem failure_aborts_turn (o : Oracle) (mem : Memory) (tr : List Event)
    (u e line : String) (rest : List String) :
    ((concOrchestrate o mem u).outcome = .error e →
      (concOrchestrate o mem u).memory = mem ∧
      countIf Event.isSave (concOrchestrate o mem u).trace = 0) ∧
    ((seqOrchestrate o mem u).outcome = .error e →
      (seqOrchestrate o mem u).memory = mem ∧
      countIf Event.isSave (seqOrchestrate o mem u).trace = 0) ∧
    (isExitLine line = false → pyStrip line ≠ "" →
      runLoop (concOrchestrate o) (line :: rest) mem tr =
        runLoop (concOrchestrate o) rest
          (concOrchestrate o mem (pyStrip line)).memory
          (tr ++ (concOrchestrate o mem (pyStrip line)).trace)) := by
  refine ⟨?_, ?_, ?_⟩
  · intro herr
    cases hs : o.shopping u mem with
    | error e0 =>
        simp [concOrchestrate, hs, countIf, Event.isSave]
    | ok s =>
      cases hsen : pyIn SENTINEL s with
      | false => simp [concOrchestrate, hs, hsen] at herr
      | true =>
        cases hc : o.catalog s with
        | error e0 =>
            cases hv : o.service s <;>
              simp [concOrchestrate, hs, hsen, hc, hv, countIf, Event.isSave]
        | ok c =>
          cases hv : o.service s with
          | error e0 =>
              simp [concOrchestrate, hs, hsen, hc, hv, countIf, Event.isSave]
          | ok sv =>
            cases hp : o.payment (combinedInput c sv s) with
            | error e0 =>
                simp [concOrchestrate, hs, hsen, hc, hv, hp, countIf, Event.isSave]
            | ok p => simp [concOrchestrate, hs, hsen, hc, hv, hp] at herr
  · intro herr
    cases hs : o.shopping u mem with
    | error e0 =>
        simp [seqOrchestrate, hs, countIf, Event.isSave]
    | ok s =>
      cases hsen : pyIn SENTINEL s with
      | false => simp [seqOrchestrate, hs, hsen] at herr
      | true =>
        cases hc : o.catalog s with
        | error e0 =>
            simp [seqOrchestrate, hs, hsen, hc, countIf, Event.isSave]
        | ok c =>
          cases hp : o.payment c with
          | error e0 =>
              simp [seqOrchestrate, hs, hsen, hc, hp, countIf, Event.isSave]
          | ok p => simp [seqOrchestrate, hs, hsen, hc, hp] at herr
  · intro hexit hne
    rw [runLoop, if_neg, if_pos hne]
    simp [hexit]

/-- C4 witness: a catalog transport failure aborts the turn with no memory
write, and the loop proceeds to the next prompt. -/
theorem failure_aborts_turn_witness :
    (concOrchestrate catFailOracle [] "buy shoes").memory = [] ∧
    runLoop (concOrchestrate catFailOracle) ["buy shoes"] [] [] =
      runLoop (concOrchestrate catFailOracle) []
        (concOrchestrate catFailOracle [] "buy shoes").memory
        ([] ++ (concOrchestrate catFailOracle [] "buy shoes").trace) :=
  ⟨((failure_aborts_turn catFailOracle [] [] "buy shoes" "transport failure"
      "x" []).1 (by decide)).1,
   (failure_aborts_turn catFailOracle [] [] "x" "transport failure"
      "buy shoes" []).2.2 (by decide) (by decide)⟩

/-- C5: in both orchestrators, the downstream stage inputs are built solely
from the shopping output: every catalog and customer-service invocation
receives exactly the shopping output, every payment invocation receives a
payload determined by the shopping output and the joined stage outputs, and
two runs whose shopping stage answers identically (whatever the stored
history) have identical outcomes and identical downstream event traces. -/
theorem history_isolation (o : Oracle) (u : String) :
    (∀ mem s x, o.shopping u mem = .ok s →
      (Event.catalogCall x ∈ (concOrchestrate o mem u).trace → x = s) ∧
      (Event.serviceCall x ∈ (concOrchestrate o mem u).trace → x = s) ∧
      (Event.paymentCall x ∈ (concOrchestrate o mem u).trace →
        ∃ c sv, o.catalog s = .ok c ∧ o.service s = .ok sv ∧
          x = combinedInput c sv s) ∧
      (Event.catalogCall x ∈ (seqOrchestrate o mem u).trace → x = s) ∧
      (Event.paymentCall x ∈ (seqOrchestrate o mem u).trace →
        o.catalog s = .ok x)) ∧
    (∀ mem1 mem2, o.shopping u mem1 = o.shopping u mem2 →
      ((concOrchestrate o mem1 u).outcome = (concOrchestrate o mem2 u).outcome ∧
        (concOrchestrate o mem1 u).trace.filter (fun e => !e.isShoppingCall) =
          (concOrchestrate o mem2 u).trace.filter (fun e => !e.isShoppingCall)) ∧
      ((seqOrchestrate o mem1 u).outcome = (seqOrchestrate o mem2 u).outcome ∧
        (seqOrchestrate o mem1 u).trace.filter (fun e => !e.isShoppingCall) =
          (seqOrchestrate o mem2 u).trace.filter (fun e => !e.isShoppingCall))) := by
  constructor
  · intro mem s x hs
    cases hsen : pyIn SENTINEL s with
    | false =>
        simp [concOrchestrate, seqOrchestrate, hs, hsen]
    | true =>
      cases hc : o.catalog s with
      | error e =>
          cases hv : o.service s with
          | error e2 =>
              simp [concOrchestrate, seqOrchestrate, hs, hsen, hc, hv]
          | ok sv =>
              simp [concOrchestrate, seqOrchestrate, hs, hsen, hc, hv]
      | ok c =>
        cases hv : o.service s with
        | error e2 =>
            cases hp2 : o.payment c with
            | error e3 =>
                simp [concOrchestrate, seqOrchestrate, hs, hsen, hc, hv, hp2]
                exact fun hx => hx.symm
            | ok p2 =>
                simp [concOrchestrate, seqOrchestrate, hs, hsen, hc, hv, hp2]
                exact fun hx => hx.symm
        | ok sv =>
          cases hp : o.payment (combinedInput c sv s) with
          | error e3 =>
              cases hp2 : o.payment c with
              | error e4 =>
                  simp [concOrchestrate, seqOrchestrate, hs, hsen, hc, hv, hp, hp2]
                  exact fun hx => hx.symm
              | ok p2 =>
                  simp [concOrchestrate, seqOrchestrate, hs, hsen, hc, hv, hp, hp2]
                  exact fun hx => hx.symm
          | ok p =>
              cases hp2 : o.payment c with
              | error e4 =>
                  simp [concOrchestrate, seqOrchestrate, hs, hsen, hc, hv, hp, hp2]
                  exact fun hx => hx.symm
              | ok p2 =>
                  simp [concOrchestrate, seqOrchestrate, hs, hsen, hc, hv, hp, hp2]
                  exact fun hx => hx.symm
  · intro mem1 mem2 h
    cases hs1 : o.shopping u mem1 with
    | error e =>
        have hs2 : o.shopping u mem2 = .error e := h.symm.trans hs1
        simp [concOrchestrate, seqOrchestrate, hs1, hs2, Event.isShoppingCall]
    | ok s =>
      have hs2 : o.shopping u mem2 = .ok s := h.symm.trans hs1
      cases hsen : pyIn SENTINEL s with
      | false =>
          simp [concOrchestrate, seqOrchestrate, hs1, hs2, hsen,
            Event.isShoppingCall]
      | true =>
        cases hc : o.catalog s with
        | error e =>
            cases hv : o.service s <;>
              simp [concOrchestrate, seqOrchestrate, hs1, hs2, hsen, hc,
                Event.isShoppingCall]
        | ok c =>
          cases hv : o.service s with
          | error e2 =>
              cases hp2 : o.payment c <;>
                simp [concOrchestrate, seqOrchestrate, hs1, hs2, hsen, hc, hv, hp2,
                  Event.isShoppingCall]
          | ok sv =>
              cases hp : o.payment (combinedInput c sv s) <;>
                cases hp2 : o.payment c <;>
                  simp [concOrchestrate, seqOrchestrate, hs1, hs2, hsen, hc, hv,
                    hp, hp2, Event.isShoppingCall]

/-- C5 witness: with the all-success purchase oracle (whose shopping answer
ignores the history), a run from empty memory and a run from a non-empty
memory produce the same outcome. -/
theorem history_isolation_witness :
    (concOrchestrate okOracle [] "buy shoes").outcome =
      (concOrchestrate okOracle [("a", "b")] "buy shoes").outcome ∧
    "READY_TO_PURCHASE: running shoes" = "READY_TO_PURCHASE: running shoes" :=
  ⟨(((history_isolation okOracle "buy shoes").2 [] [("a", "b")] rfl).1).1,
   ((history_isolation okOracle "buy shoes").1 []
      "READY_TO_PURCHASE: running shoes" "READY_TO_PURCHASE: running shoes"
      rfl).1 (by decide)⟩

/-- C6 counterexample: on a concrete purchase-intent turn (the shopping
output contains the sentinel and every stage succeeds), the sequential
orchestrator performs zero customer-service invocations, contradicting the
claim that it invokes all four agents. -/
theorem seq_no_service_counterexample :
    pyIn SENTINEL "READY_TO_PURCHASE: running shoes" = true ∧
    (seqOrchestrate okOracle [] "buy shoes").outcome = .ok "orderSummary" ∧
    countIf Event.isServiceCall
      (seqOrchestrate okOracle [] "buy shoes").trace = 0 := by
  decide

/-- C6 amended: the sequential orchestrator invokes the shopping, catalog,
and payment agents one after another and never invokes a customer-service
stage; on a purchase-intent turn it invokes the catalog stage exactly once,
every payment invocation comes after the catalog result, and when the
catalog stage succeeds the payment stage is invoked exactly once with the
catalog output as its payload. -/
theorem seq_pipeline_structure (o : Oracle) (mem : Memory) (u s : String) :
    countIf Event.isServiceCall (seqOrchestrate o mem u).trace = 0 ∧
    (o.shopping u mem = .ok s → pyIn SENTINEL s = true →
      countIf Event.isCatalogCall (seqOrchestrate o mem u).trace = 1 ∧
      onlyAfter Event.isCatalogDone Event.isPaymentCall
        (seqOrchestrate o mem u).trace false = true ∧
      (∀ c, o.catalog s = .ok c →
        countIf Event.isPaymentCall (seqOrchestrate o mem u).trace = 1 ∧
        Event.paymentCall c ∈ (seqOrchestrate o mem u).trace)) := by
  constructor
  · cases hs : o.shopping u mem with
    | error e => simp [seqOrchestrate, hs, countIf, Event.isServiceCall]
    | ok s0 =>
      cases hsen : pyIn SENTINEL s0 with
      | false => simp [seqOrchestrate, hs, hsen, countIf, Event.isServiceCall]
      | true =>
        cases hc : o.catalog s0 with
        | error e => simp [seqOrchestrate, hs, hsen, hc, countIf, Event.isServiceCall]
        | ok c =>
            cases hp : o.payment c <;>
              simp [seqOrchestrate, hs, hsen, hc, hp, countIf, Event.isServiceCall]
  · intro hs hsen
    cases hc : o.catalog s with
    | error e =>
        refine ⟨?_, ?_, ?_⟩
        · simp [seqOrchestrate, hs, hsen, hc, countIf, Event.isCatalogCall]
        · simp [seqOrchestrate, hs, hsen, hc, onlyAfter,
            Event.isCatalogDone, Event.isPaymentCall]
        · intro c0 hcc
          exact Except.noConfusion hcc
    | ok c =>
      cases hp : o.payment c with
      | error e =>
          refine ⟨?_, ?_, ?_⟩
          · simp [seqOrchestrate, hs, hsen, hc, hp, countIf, Event.isCatalogCall]
          · simp [seqOrchestrate, hs, hsen, hc, hp, onlyAfter,
              Event.isCatalogDone, Event.isPaymentCall]
          · intro c0 hcc
            have hc0 : c0 = c := (Except.ok.inj hcc).symm
            subst hc0
            simp [seqOrchestrate, hs, hsen, hc, hp, countIf, Event.isPaymentCall]
      | ok p =>
          refine ⟨?_, ?_, ?_⟩
          · simp [seqOrchestrate, hs, hsen, hc, hp, countIf, Event.isCatalogCall]
          · simp [seqOrchestrate, hs, hsen, hc, hp, onlyAfter,
              Event.isCatalogDone, Event.isPaymentCall]
          · intro c0 hcc
            have hc0 : c0 = c := (Except.ok.inj hcc).symm
            subst hc0
            simp [seqOrchestrate, hs, hsen, hc, hp, countIf, Event.isPaymentCall]

/-- C6 amended witness: on the all-success purchase oracle, the sequential
trace has one catalog invocation and one payment invocation on the catalog
output. -/
theorem seq_pipeline_structure_witness :
    countIf Event.isServiceCall (seqOrchestrate okOracle [] "buy shoes").trace = 0 ∧
    countIf Event.isPaymentCall (seqOrchestrate okOracle [] "buy shoes").trace = 1 :=
  ⟨(seq_pipeline_structure okOracle [] "buy shoes"
      "READY_TO_PURCHASE: running shoes").1,
   (((seq_pipeline_structure okOracle [] "buy shoes"
      "READY_TO_PURCHASE: running shoes").2 rfl (by decide)).2.2
      "catalogInfo" rfl).1⟩

/-- C7: the branch decision is a pure total function of the shopping output
text alone: evaluating it twice on the same text yields the same decision,
any text lacking the exact sentinel (including lowercased or re-spaced
variants of it) yields the continue-conversation decision rather than an
error, and both orchestrators enter the fulfillment pipeline exactly when
`classify` of the shopping output says so. -/
theorem classify_pure_default (s : String) (o : Oracle) (mem : Memory)
    (u t : String) :
    classify s = classify s ∧
    (pyIn SENTINEL s = false → classify s = .continueConversation) ∧
    classify "ready_to_purchase: running shoes" = .continueConversation ∧
    classify "READY _TO_PURCHASE: running shoes" = .continueConversation ∧
    classify "" = .continueConversation ∧
    (o.shopping u mem = .ok t →
      (0 < countIf Event.isCatalogCall (concOrchestrate o mem u).trace ↔
        classify t = .fulfillment) ∧
      (0 < countIf Event.isCatalogCall (seqOrchestrate o mem u).trace ↔
        classify t = .fulfillment)) := by
  refine ⟨rfl, ?_, by decide, by decide, by decide, ?_⟩
  · intro h
    simp [classify, h]
  · intro hs
    cases hsen : pyIn SENTINEL t with
    | false =>
        constructor <;>
          simp [concOrchestrate, seqOrchestrate, classify, hs, hsen, countIf,
            Event.isCatalogCall]
    | true =>
      constructor
      · cases hc : o.catalog t with
        | error e =>
            cases hv : o.service t <;>
              simp [concOrchestrate, classify, hs, hsen, hc, hv, countIf,
                Event.isCatalogCall]
        | ok c =>
          cases hv : o.service t with
          | error e =>
              simp [concOrchestrate, classify, hs, hsen, hc, hv, countIf,
                Event.isCatalogCall]
          | ok sv =>
              cases hp : o.payment (combinedInput c sv t) <;>
                simp [concOrchestrate, classify, hs, hsen, hc, hv, hp, countIf,
                  Event.isCatalogCall]
      · cases hc : o.catalog t with
        | error e =>
            simp [seqOrchestrate, classify, hs, hsen, hc, countIf,
              Event.isCatalogCall]
        | ok c =>
            cases hp : o.payment c <;>
              simp [seqOrchestrate, classify, hs, hsen, hc, hp, countIf,
                Event.isCatalogCall]

/-- C7 witness: a malformed sentinel defaults to continue-conversation, and
the all-success purchase oracle enters the fulfillment pipeline. -/
theorem classify_pure_default_witness :
    classify "ready to purchase maybe" = .continueConversation ∧
    (0 < countIf Event.isCatalogCall
      (concOrchestrate okOracle [] "buy shoes").trace ↔
      classify "READY_TO_PURCHASE: running shoes" = .fulfillment) :=
  ⟨(classify_pure_default "ready to purchase maybe" okOracle [] "buy shoes"
      "x").2.1 (by decide),
   ((classify_pure_default "x" okOracle [] "buy shoes"
      "READY_TO_PURCHASE: running shoes").2.2.2.2.2 rfl).1⟩

theorem charsLead_append_self (n b : List Char) : charsLead n (n ++ b) = true := by
  induction n with
  | nil => rfl
  | cons a as ih => simp [charsLead, ih]

theorem hasSeg_of_lead (n h : List Char) (hl : charsLead n h = true) :
    hasSeg n h = true := by
  cases h with
  | nil => simpa [hasSeg] using hl
  | cons x t => simp [hasSeg, hl]

theorem hasSeg_append_mid (a n b : List Char) : hasSeg n (a ++ (n ++ b)) = true := by
  induction a with
  | nil => simpa using hasSeg_of_lead n (n ++ b) (charsLead_append_self n b)
  | cons x xs ih => simp [hasSeg, ih]

/-- A string occurs as a Python substring of any concatenation that embeds
it. -/
theorem pyIn_append_mid (a n b : String) : pyIn n (a ++ n ++ b) = true := by
  have hdata : (a ++ n ++ b).data = a.data ++ (n.data ++ b.data) := by
    simp [String.data_append]
  simpa [pyIn, hdata] using hasSeg_append_mid a.data n.data b.data

/-- C8: on the fulfillment branch of the concurrent orchestrator, the
payment stage is invoked on the composite payload, that payload embeds the
catalog output, the customer-service output, and the original shopping
output as substrings, and the turn's final output equals the payment
stage's returned text. -/
theorem conc_payment_composite (o : Oracle) (mem : Memory) (u s c sv p : String)
    (hs : o.shopping u mem = .ok s) (hsen : pyIn SENTINEL s = true)
    (hc : o.catalog s = .ok c) (hv : o.service s = .ok sv)
    (hp : o.payment (combinedInput c sv s) = .ok p) :
    (concOrchestrate o mem u).outcome = .ok p ∧
    Event.paymentCall (combinedInput c sv s) ∈ (concOrchestrate o mem u).trace ∧
    pyIn c (combinedInput c sv s) = true ∧
    pyIn sv (combinedInput c sv s) = true ∧
    pyIn s (combinedInput c sv s) = true := by
  refine ⟨?_, ?_, ?_, ?_, ?_⟩
  · simp [concOrchestrate, hs, hsen, hc, hv, hp]
  · simp [concOrchestrate, hs, hsen, hc, hv, hp]
  · have := pyIn_append_mid "\nCatalog Information:\n" c
      ("\n\nCustomer Service Information:\n" ++ sv ++
        "\n\nOriginal Request: " ++ s ++ "\n")
    simpa [combinedInput, String.append_assoc] using this
  · have := pyIn_append_mid
      ("\nCatalog Information:\n" ++ c ++ "\n\nCustomer Service Information:\n")
      sv ("\n\nOriginal Request: " ++ s ++ "\n")
    simpa [combinedInput, String.append_assoc] using this
  · have := pyIn_append_mid
      ("\nCatalog Information:\n" ++ c ++ "\n\nCustomer Service Information:\n" ++
        sv ++ "\n\nOriginal Request: ") s "\n"
    simpa [combinedInput, String.append_assoc] using this

/-- C8 witness: the all-success purchase turn returns the payment text and
its payment payload embeds all three components. -/
theorem conc_payment_composite_witness :
    (concOrchestrate okOracle [] "buy shoes").outcome = .ok "orderSummary" ∧
    pyIn "catalogInfo"
      (combinedInput "catalogInfo" "serviceInfo"
        "READY_TO_PURCHASE: running shoes") = true :=
  ⟨(conc_payment_composite okOracle [] "buy shoes"
      "READY_TO_PURCHASE: running shoes" "catalogInfo" "serviceInfo"
      "orderSummary" rfl (by decide) rfl rfl rfl).1,
   (conc_payment_composite okOracle [] "buy shoes"
      "READY_TO_PURCHASE: running shoes" "catalogInfo" "serviceInfo"
      "orderSummary" rfl (by decide) rfl rfl rfl).2.2.1⟩

/-- C9: any input line that strips and lowercases to one of the exit tokens
stops the conversation loop immediately with exit status 0: no orchestrated
turn runs for that line (memory and trace are untouched) and the remaining
lines are never read. -/
theorem exit_token_terminates (orch : Memory → String → TurnResult)
    (mem : Memory) (tr : List Event) (line : String) (rest : List String)
    (h : pyLower (pyStrip line) = "quit" ∨ pyLower (pyStrip line) = "exit" ∨
      pyLower (pyStrip line) = "q") :
    runLoop orch (line :: rest) mem tr = (mem, tr, some 0) := by
  have hexit : isExitLine line = true := by
    simp only [isExitLine, decide_eq_true_eq]
    exact h
  rw [runLoop, if_pos hexit]

/-- C9 witness: the line `" Quit "` ends the loop at once with status 0,
leaving memory and trace empty and the following line unprocessed. -/
theorem exit_token_terminates_witness :
    runLoop (concOrchestrate okOracle) [" Quit ", "buy shoes"] [] [] =
      ([], [], some 0) :=
  exit_token_terminates (concOrchestrate okOracle) [] [] " Quit "
    ["buy shoes"] (Or.inl (by decide))

/-- C10: an input line that is empty or all whitespace triggers no
orchestration at all — the loop's state (memory and trace) is passed through
unchanged and the loop simply moves on to the next input line. -/
theorem blank_line_skipped (orch : Memory → String → TurnResult)
    (mem : Memory) (tr : List Event) (line : String) (rest : List String)
    (h : pyStrip line = "") :
    runLoop orch (line :: rest) mem tr = runLoop orch rest mem tr := by
  have hexit : isExitLine line = false := by
    simp [isExitLine, h, pyLower]
  rw [runLoop]
  rw [if_neg (by simp [hexit]), if_neg (by simp [h])]

/-- C10 witness: a tab-and-spaces line is skipped without touching memory. -/
theorem blank_line_skipped_witness :
    runLoop (concOrchestrate okOracle) [" \t "] [] [] =
      runLoop (concOrchestrate okOracle) [] [] [] :=
  blank_line_skipped (concOrchestrate okOracle) [] [] " \t " [] (by decide)

end Orchestration
